import Mathlib

/-!
Shallow embedding of the `sqlstate` Python module (src/sqlstate/__init__.py):
a connection-lifecycle and schema-binding layer over SQLAlchemy.

Modelling conventions, stated once:
* File-system paths, connection URLs and SQL values are `String`s.
* Python `dict`s that the module builds key-by-key are association lists
  (`List (String × α)`); lookup is `List.lookup`, which matches Python's
  left-to-right first-hit semantics for the lists we build.
* Python object identity (`is`) is modelled with explicit allocation
  identifiers threaded through constructors that allocate fresh objects
  (`SimpleNamespace(...)` allocates a fresh object on every call).
* The SQLAlchemy engine is an external collaborator (spec: OUT OF SCOPE,
  specified only at its interface).  It is modelled as a record holding a
  connection pool, a disposed flag and a dispose-call counter; catalog
  introspection is modelled as a pure lookup in the database catalog plus a
  round-trip counter, so that "number of catalog round trips" is observable.
* Exceptions are `Except`; distinct Python exception classes are distinct
  constructors, so "fails with X, never with Y" is statable.
-/

namespace SqlStateM

/-- A reflected table (or view) descriptor: SQLAlchemy `Table` with its
schema, name and column-level structure. -/
structure Table where
  schem : String
  tname : String
  columns : List String
deriving DecidableEq, Repr

/-- The database catalog visible to reflection: for each schema name, the
tables/views (name and columns) physically present in that schema. -/
structure Catalog where
  schemas : List (String × List (String × List String))
deriving DecidableEq, Repr

/-- Error raised by a failed reflection round trip (the spec's SchemaError:
requested schema absent or catalog query failed). -/
inductive SchemaError where
  | reflectFailed (schemaName : String)
deriving DecidableEq, Repr

/-- Python-level lookup errors distinguished by the spec: the typed
`InvalidRequestError` that SQLAlchemy's `Table(..., mustexist=True)` raises
for an unknown table (the spec's NotFound), versus a generic
`AttributeError`. -/
inductive PyError where
  | invalidRequest (tname : String)
  | attributeError (name : String)
deriving DecidableEq, Repr

/-- Connection-level errors (the spec's ConnectionError). -/
inductive ConnError where
  | poolExhausted
  | engineDisposed
deriving DecidableEq, Repr

/-- TLS configuration block: `SqlTlsConfig` (pydantic model).  Paths are
strings; `sslmode` defaults to "verify-ca". -/
structure SqlTlsConfig where
  serverCa : Option String
  clientCert : Option String
  clientKey : Option String
  sslmode : String := "verify-ca"
deriving DecidableEq, Repr

/-- `SqlTlsConfig.to_connect_args`: builds the driver parameter bag.
`sslmode` is always present; `sslcert`, `sslkey`, `sslrootcert` are added
(in that order, as in the source) only when the corresponding field is set. -/
def SqlTlsConfig.to_connect_args (c : SqlTlsConfig) : List (String × String) :=
  let p0 : List (String × String) := [("sslmode", c.sslmode)]
  let p1 := match c.clientCert with
    | some v => p0 ++ [("sslcert", v)]
    | none => p0
  let p2 := match c.clientKey with
    | some v => p1 ++ [("sslkey", v)]
    | none => p1
  match c.serverCa with
  | some v => p2 ++ [("sslrootcert", v)]
  | none => p2

/-- The expression `config.tls.to_connect_args() if config.tls else {}`
from `sql_from_config` (line 142): the rendered TLS parameter bag, empty
when no TLS block is present. -/
def tlsParams (tls : Option SqlTlsConfig) : List (String × String) :=
  match tls with
  | some t => t.to_connect_args
  | none => []

/-- `SqlConfig` (pydantic model): connection coordinates plus free-form
engine-option mappings and the optional TLS block.  Option values are
abstracted to strings; they are forwarded opaquely to the external engine
constructor and never interpreted by this module. -/
structure SqlConfig where
  host : String
  port : Nat
  database : String
  username : String
  password : String
  engine_args : List (String × String) := []
  async_engine_args : List (String × String) := []
  tls : Option SqlTlsConfig := none
deriving DecidableEq, Repr

/-- `URL.create(driver, **url_params)`: assemble the connection URL from the
driver name and the coordinate fields of the config (TLS and engine-arg
fields excluded, as in the source's `config.dict(exclude=...)`). -/
def make_url (driver : String) (c : SqlConfig) : String :=
  driver ++ "://" ++ c.username ++ ":" ++ c.password ++ "@" ++ c.host ++ ":"
    ++ toString c.port ++ "/" ++ c.database

/-- One reflection pass (`MetaData(schema=name); metadata.reflect(bind=engine,
views=True)`): enumerate every table and view of `schemaName` from the
catalog, producing the cached metadata (a mapping from table name to
descriptor).  The second component counts catalog round trips: a reflection
pass is one round trip.  Reflection fails (SchemaError) when the catalog has
no such schema; it is all-or-nothing. -/
def reflect (cat : Catalog) (schemaName : String) :
    Except SchemaError (List (String × Table)) × Nat :=
  (match cat.schemas.lookup schemaName with
   | some ts => .ok (ts.map fun p => (p.1, ⟨schemaName, p.1, p.2⟩))
   | none => .error (.reflectFailed schemaName), 1)

/-- `SchemaContainer` (frozen dataclass): the schema name together with the
metadata cached by the single reflection pass run in `__post_init__`. -/
structure SchemaContainer where
  name : String
  tables : List (String × Table)
deriving DecidableEq, Repr

/-- `SchemaContainer(engine, name)`: construction runs exactly one
reflection pass (`__post_init__`) and caches its result; the round-trip
count of construction is the round-trip count of that pass. -/
def SchemaContainer.construct (cat : Catalog) (name : String) :
    Except SchemaError SchemaContainer × Nat :=
  match reflect cat name with
  | (.ok tbls, n) => (.ok ⟨name, tbls⟩, n)
  | (.error e, n) => (.error e, n)

/-- SQLAlchemy's `Table(name, metadata, schema=..., mustexist=...)`
constructor at its documented interface: if `name` is already registered in
`metadata` it returns the existing descriptor and leaves the metadata
unchanged; otherwise, with `mustexist=True` it raises `InvalidRequestError`,
and with `mustexist=False` it registers and returns a fresh empty table.
No `autoload` argument is passed anywhere in this module, so this call
never touches the database catalog. -/
def sa_Table (tname : String) (metadata : List (String × Table))
    (schemaName : String) (mustexist : Bool) :
    Except PyError (Table × List (String × Table)) :=
  match metadata.lookup tname with
  | some t => .ok (t, metadata)
  | none =>
    if mustexist then .error (.invalidRequest tname)
    else
      let t : Table := ⟨schemaName, tname, []⟩
      .ok (t, metadata ++ [(tname, t)])

/-- `SchemaContainer.__getattr__(name)`: evaluates
`Table(name, self._metadata, schema=self.name, mustexist=True)`.  Returns
the lookup result, the container afterwards (its metadata as left by the
`Table` call) and the number of catalog round trips performed (zero: the
`Table` constructor is a pure registry lookup, see `sa_Table`). -/
def SchemaContainer.getattr (c : SchemaContainer) (tname : String) :
    Except PyError Table × SchemaContainer × Nat :=
  match sa_Table tname c.tables c.name true with
  | .ok (t, md) => (.ok t, { c with tables := md }, 0)
  | .error e => (.error e, c, 0)

/-- Issue a sequence of lookups against one container, threading the
container state and accumulating catalog round trips. -/
def SchemaContainer.lookupMany (c : SchemaContainer) (names : List String) :
    SchemaContainer × Nat :=
  names.foldl (fun acc n =>
    let r := acc.1.getattr n
    (r.2.1, acc.2 + r.2.2)) (c, 0)

/-- A `SimpleNamespace` holding schema containers.  `nsId` models Python
object identity: `SimpleNamespace(**schemas)` allocates a fresh object on
every call, so every construction site below draws `nsId` from an
allocation counter. -/
structure SNamespace where
  nsId : Nat
  entries : List (String × SchemaContainer)
deriving DecidableEq, Repr

/-- Resolve `namespace.alias.tableName`: attribute access on the
`SimpleNamespace` (a missing alias is a generic `AttributeError`), then
`SchemaContainer.__getattr__` on the container. -/
def SNamespace.resolve (ns : SNamespace) (aliasName tname : String) :
    Except PyError Table :=
  match ns.entries.lookup aliasName with
  | some c => (c.getattr tname).1
  | none => .error (.attributeError aliasName)

/-- `_make_schema_namespace(engine, **schemas)`: build one `SchemaContainer`
per alias entry (a dict comprehension: eager, left to right, aborted whole
by the first reflection failure) and wrap the result in a freshly allocated
`SimpleNamespace`.  `alloc` is the allocation counter for namespace
identities. -/
def buildContainers (cat : Catalog) :
    List (String × String) → Except SchemaError (List (String × SchemaContainer))
  | [] => .ok []
  | (a, s) :: rest =>
    match (SchemaContainer.construct cat s).1 with
    | .ok c =>
      match buildContainers cat rest with
      | .ok cs => .ok ((a, c) :: cs)
      | .error e => .error e
    | .error e => .error e

/-- Source name `_make_schema_namespace`. -/
def make_schema_namespace (cat : Catalog) (schemas : List (String × String))
    (alloc : Nat) : Except SchemaError SNamespace × Nat :=
  match buildContainers cat schemas with
  | .ok entries => (.ok ⟨alloc, entries⟩, alloc + 1)
  | .error e => (.error e, alloc)

/-- The connection pool owned by an engine: a supply of fresh connection
identifiers and the identifiers currently checked out. -/
structure Pool where
  nextConn : Nat := 0
  checkedOut : List Nat := []
deriving DecidableEq, Repr

/-- Whether an engine handle is blocking (`create_engine`) or non-blocking
(`create_async_engine`). -/
inductive EngineKind where
  | blocking
  | async
deriving DecidableEq, Repr

/-- A driver engine at its interface (spec: external collaborator): it owns
a pool, records its connection URL and the connect-args bag it was built
with, and has a disposal operation.  `disposeCalls` counts how often
`dispose()` has been invoked, so "disposed exactly once" is observable. -/
structure EngineRec where
  kind : EngineKind
  url : String
  connectArgs : List (String × String) := []
  pool : Pool := {}
  disposed : Bool := false
  disposeCalls : Nat := 0
deriving DecidableEq, Repr

/-- `engine.dispose()`: release all pooled resources; the engine is
thereafter in the terminal Disposed state. -/
def EngineRec.dispose (e : EngineRec) : EngineRec :=
  { e with disposed := true, disposeCalls := e.disposeCalls + 1 }

/-- `engine.connect()`: check one connection out of the pool.  Per the
spec's driver interface, an operation attempted on a disposed engine fails
with a ConnectionError rather than exhibiting undefined behavior. -/
def EngineRec.connect (e : EngineRec) : Except ConnError (Nat × EngineRec) :=
  if e.disposed then .error .engineDisposed
  else
    .ok (e.pool.nextConn,
      { e with pool := ⟨e.pool.nextConn + 1, e.pool.nextConn :: e.pool.checkedOut⟩ })

/-- Return a checked-out connection to the pool (the exit action of the
`with engine.connect() as c:` block). -/
def EngineRec.release (e : EngineRec) (c : Nat) : EngineRec :=
  { e with pool := ⟨e.pool.nextConn, e.pool.checkedOut.erase c⟩ }

/-- How the body of a scoped acquisition exits: normal completion, an early
return, or a raised error. -/
inductive Outcome (α : Type) where
  | ok (a : α)
  | earlyReturn (a : α)
  | raised (msg : String)
deriving DecidableEq, Repr

/-- `SqlConnection` (frozen dataclass): a live blocking connection paired
with a schema namespace. -/
structure SqlConn where
  connection : Nat
  s : SNamespace
deriving DecidableEq, Repr

/-- `SqlConnection.__init__(connection, **schemas)`: stores the connection
and wraps the passed schema entries in a freshly allocated
`SimpleNamespace`. -/
def SqlConn.init (connection : Nat) (schemas : List (String × SchemaContainer))
    (alloc : Nat) : SqlConn × Nat :=
  (⟨connection, ⟨alloc, schemas⟩⟩, alloc + 1)

/-- `AsyncSqlConnection` (frozen dataclass): the non-blocking twin. -/
structure AsyncSqlConn where
  connection : Nat
  s : SNamespace
deriving DecidableEq, Repr

/-- `AsyncSqlConnection.__init__`: identical to the blocking twin. -/
def AsyncSqlConn.init (connection : Nat)
    (schemas : List (String × SchemaContainer)) (alloc : Nat) :
    AsyncSqlConn × Nat :=
  (⟨connection, ⟨alloc, schemas⟩⟩, alloc + 1)

/-- `SqlState`: identifies its owned blocking engine and holds the schema
namespace built once at construction. -/
structure SqlState where
  engine : Nat
  s : SNamespace
deriving DecidableEq, Repr

/-- `SqlState.__init__(engine, **schemas)`: builds the namespace eagerly;
a reflection failure aborts construction and no state object exists. -/
def SqlState.init (engine : Nat) (cat : Catalog)
    (schemas : List (String × String)) (alloc : Nat) :
    Except SchemaError SqlState × Nat :=
  match make_schema_namespace cat schemas alloc with
  | (.ok ns, a1) => (.ok ⟨engine, ns⟩, a1)
  | (.error e, a1) => (.error e, a1)

/-- `AsyncSqlState`: identifies its owned non-blocking engine and holds a
namespace handed to it by its factory. -/
structure AsyncSqlState where
  engine : Nat
  s : SNamespace
deriving DecidableEq, Repr

/-- The full `with state.connect() as conn: body` cycle on the state's
engine: check out a connection, build the handle (`SqlConnection(c,
**vars(self.s))` — note `vars` unpacks the entries and the handle wraps
them in a fresh namespace), run the body, and — because both the inner
`with engine.connect()` and the `@contextmanager` guarantee it — release
the connection on every exit path of the body.  A checkout failure raises
to the caller with nothing checked out. -/
def SqlState.connect_scope {α : Type} (st : SqlState) (e : EngineRec)
    (alloc : Nat) (body : SqlConn → Outcome α) :
    EngineRec × Nat × Outcome α :=
  match e.connect with
  | .error _ => (e, alloc, .raised "ConnectionError")
  | .ok (c, e1) =>
    let h := SqlConn.init c st.s.entries alloc
    (e1.release c, h.2, body h.1)

/-- The full `async with state.acquire() as conn: body` cycle, mirroring
`SqlState.connect_scope` for the non-blocking state. -/
def AsyncSqlState.acquire_scope {α : Type} (st : AsyncSqlState)
    (e : EngineRec) (alloc : Nat) (body : AsyncSqlConn → Outcome α) :
    EngineRec × Nat × Outcome α :=
  match e.connect with
  | .error _ => (e, alloc, .raised "ConnectionError")
  | .ok (c, e1) =>
    let h := AsyncSqlConn.init c st.s.entries alloc
    (e1.release c, h.2, body h.1)

/-- The `with sql_state: body` cycle: `__enter__` returns the state, the
body runs, and `__exit__` — invoked exactly once, on normal and exceptional
exit alike — disposes the engine.  The body may use the engine (e.g. via
`connect`), so it transforms the engine record. -/
def SqlState.with_scope {α : Type} (e : EngineRec)
    (body : EngineRec → Outcome α × EngineRec) : Outcome α × EngineRec :=
  let r := body e
  (r.1, r.2.dispose)

/-- The `async with async_sql_state: body` cycle: `__aexit__` disposes the
async engine on every exit path. -/
def AsyncSqlState.with_scope {α : Type} (e : EngineRec)
    (body : EngineRec → Outcome α × EngineRec) : Outcome α × EngineRec :=
  let r := body e
  (r.1, r.2.dispose)

/-- The world the factory functions act on: one database (its catalog) and
every engine constructed so far, keyed by an engine identifier drawn from
`nextEngine`.  Tracking engines in the world makes "an engine constructed
by this invocation was (not) disposed" observable. -/
structure World where
  db : Catalog
  nextEngine : Nat := 0
  engines : List (Nat × EngineRec) := []
deriving DecidableEq, Repr

/-- `create_engine` / `create_async_engine` at the driver interface:
allocate a fresh engine handle connected to the world's database. -/
def World.create_engine (w : World) (r : EngineRec) : Nat × World :=
  (w.nextEngine,
   { w with nextEngine := w.nextEngine + 1, engines := (w.nextEngine, r) :: w.engines })

/-- Invoke `dispose()` on the engine with identifier `i`. -/
def World.dispose_engine (w : World) (i : Nat) : World :=
  { w with engines := w.engines.map fun p => cond (p.1 == i) (p.1, p.2.dispose) p }

/-- Look up an engine record by identifier. -/
def World.engine? (w : World) (i : Nat) : Option EngineRec :=
  w.engines.lookup i

/-- `sql_from_config(config, **schemas)`: build the URL from the config's
coordinates, create a blocking engine with the rendered TLS connect-args,
then construct `SqlState(engine, **schemas)` — which reflects every
requested schema.  The source has no cleanup handler: on reflection failure
the error propagates and the world keeps the engine exactly as created.
Free-form engine options are forwarded opaquely to `create_engine` and not
modelled.  Returns (result, world after, allocation counter after). -/
def sql_from_config (w : World) (config : SqlConfig)
    (schemas : List (String × String)) (alloc : Nat) :
    Except SchemaError SqlState × World × Nat :=
  let url := make_url "postgresql" config
  let connect_args := tlsParams config.tls
  let ew := w.create_engine { kind := .blocking, url := url, connectArgs := connect_args }
  match SqlState.init ew.1 ew.2.db schemas alloc with
  | (.ok st, a1) => (.ok st, ew.2, a1)
  | (.error e, a1) => (.error e, ew.2, a1)

/-- Python's `{**a, **b}` on string-keyed dicts: the keys of `a` not
overridden by `b`, then the entries of `b`. -/
def dictMerge (a b : List (String × String)) : List (String × String) :=
  a.filter (fun p => (b.lookup p.1).isNone) ++ b

/-- The body of the `asql_from_config` generator up to its `yield`: build
the asyncpg URL, create the non-blocking engine with the merged
connect-args, then call `sql_from_config` (creating a second, blocking
engine and performing all reflection through it), and produce
`AsyncSqlState(engine, sql_state.s)`.  An error raised before the `yield`
(reflection failure) propagates with no cleanup. -/
def asql_from_config_gen (w : World) (config : SqlConfig)
    (connect_args : List (String × String)) (schemas : List (String × String))
    (alloc : Nat) :
    Except SchemaError (AsyncSqlState × SqlState) × World × Nat :=
  let url := make_url "postgresql+asyncpg" config
  let ca := dictMerge connect_args (tlsParams config.tls)
  let ew := w.create_engine { kind := .async, url := url, connectArgs := ca }
  match sql_from_config ew.2 config schemas alloc with
  | (.ok st, w2, a1) => (.ok (⟨ew.1, st.s⟩, st), w2, a1)
  | (.error e, w2, a1) => (.error e, w2, a1)

/-- `AsyncSqlState.__aexit__`: dispose the state's (async) engine — and
only that engine. -/
def AsyncSqlState.aexit (st : AsyncSqlState) (w : World) : World :=
  w.dispose_engine st.engine

/-- The full `async with asql_from_config(...) as state: body` cycle: run
the generator to its `yield`, hand the state to the body, then resume the
generator — which simply ends: the factory itself disposes nothing on the
way out. -/
def asql_from_config_scope {α : Type} (w : World) (config : SqlConfig)
    (connect_args : List (String × String)) (schemas : List (String × String))
    (alloc : Nat) (body : AsyncSqlState → World → Outcome α × World) :
    Except SchemaError (Outcome α) × World × Nat :=
  match asql_from_config_gen w config connect_args schemas alloc with
  | (.ok st, w1, a1) =>
    let r := body st.1 w1
    (.ok r.1, r.2, a1)
  | (.error e, w1, a1) => (.error e, w1, a1)

/-- The body of the `asql_from_engine` generator up to its `yield`: create
a non-blocking engine from the existing blocking engine's URL, build
`SqlState(engine, **schemas)` over the existing engine (reflecting every
schema through it), and produce `AsyncSqlState(aengine, sql_state.s)`. -/
def asql_from_engine_gen (w : World) (engineId : Nat)
    (schemas : List (String × String)) (alloc : Nat) :
    Except SchemaError (AsyncSqlState × SqlState) × World × Nat :=
  let url := match w.engine? engineId with
    | some r => r.url
    | none => ""
  let ew := w.create_engine { kind := .async, url := url }
  match SqlState.init engineId ew.2.db schemas alloc with
  | (.ok st, a1) => (.ok (⟨ew.1, st.s⟩, st), ew.2, a1)
  | (.error e, a1) => (.error e, ew.2, a1)

/-- A small database catalog used for concrete evaluations: one schema
`public` holding a table `users` and a view `v_users`. -/
def demoCatalog : Catalog :=
  ⟨[("public", [("users", ["id", "name"]), ("v_users", ["id"])])]⟩

/-- A concrete connection configuration used for concrete evaluations. -/
def demoConfig : SqlConfig :=
  { host := "db.local", port := 5432, database := "app",
    username := "svc", password := "pw" }

/-- The container reflected from `demoCatalog`'s `public` schema. -/
def publicContainer : SchemaContainer :=
  ⟨"public", [("users", ⟨"public", "users", ["id", "name"]⟩),
    ("v_users", ⟨"public", "v_users", ["id"]⟩)]⟩

/-- Namespace entries binding alias `s` to the `public` container. -/
def demoEntries : List (String × SchemaContainer) := [("s", publicContainer)]

/-- A concrete world holding one already-constructed blocking engine. -/
def demoWorld : World :=
  ⟨demoCatalog, 1,
    [(0, { kind := .blocking, url := "postgresql://svc:pw@db.local:5432/app" })]⟩

/-- A concrete blocking state whose namespace was allocated with identity 0. -/
def demoState : SqlState := ⟨0, ⟨0, demoEntries⟩⟩

/-- A concrete engine record for scoped-acquisition evaluations. -/
def demoEngine : EngineRec :=
  { kind := .blocking, url := "postgresql://svc:pw@db.local:5432/app" }

/-- First scoped acquisition against `demoState`: the body just returns the
handle it was given. -/
def demoScope1 : EngineRec × Nat × Outcome SqlConn :=
  demoState.connect_scope demoEngine 1 (fun h => Outcome.ok h)

/-- Second scoped acquisition against the same state, continuing from the
engine and allocation counter left by the first. -/
def demoScope2 : EngineRec × Nat × Outcome SqlConn :=
  demoState.connect_scope demoScope1.1 demoScope1.2.1 (fun h => Outcome.ok h)

/-! Helper lemmas and claim theorems follow. -/

theorem getattr_frame (c : SchemaContainer) (n : String) :
    (c.getattr n).2.1 = c ∧ (c.getattr n).2.2 = 0 := by
  unfold SchemaContainer.getattr sa_Table
  cases h : c.tables.lookup n <;> simp [h]

theorem lookupMany_fixed (names : List String) (c : SchemaContainer) (k : Nat) :
    names.foldl (fun acc n =>
      let r := acc.1.getattr n
      (r.2.1, acc.2 + r.2.2)) (c, k) = (c, k) := by
  induction names generalizing c k with
  | nil => rfl
  | cons n rest ih =>
    have h := getattr_frame c n
    simp only [List.foldl_cons]
    rw [show (let r := c.getattr n; (r.2.1, k + r.2.2)) = (c, k) from by
      simp [h.1, h.2]]
    exact ih c k

/-- C8: TLS parameter rendering returns the empty mapping when no TLS block
is present; with a TLS block the bag always carries the mode key
(`sslmode`), each path-bearing key (`sslrootcert` for the server CA,
`sslcert` for the client cert, `sslkey` for the client key) is present if
and only if its source field is set, and with only the client cert set the
bag is exactly mode plus client cert, the other keys absent. -/
theorem tls_params_rendering :
    tlsParams none = [] ∧
    (∀ t : SqlTlsConfig,
      (tlsParams (some t)).lookup "sslmode" = some t.sslmode ∧
      (((tlsParams (some t)).lookup "sslcert").isSome ↔ t.clientCert.isSome) ∧
      (((tlsParams (some t)).lookup "sslkey").isSome ↔ t.clientKey.isSome) ∧
      (((tlsParams (some t)).lookup "sslrootcert").isSome ↔ t.serverCa.isSome)) ∧
    (∀ p mode, SqlTlsConfig.to_connect_args ⟨none, some p, none, mode⟩ =
      [("sslmode", mode), ("sslcert", p)]) := by
  refine ⟨rfl, ?_, fun p mode => rfl⟩
  intro t
  obtain ⟨sca, cc, ck, m⟩ := t
  cases sca <;> cases cc <;> cases ck <;>
    simp [tlsParams, SqlTlsConfig.to_connect_args, List.lookup]

/-- C3: for every schema container and table name, a name not present in
the cached metadata fails with the typed `InvalidRequestError` (the spec's
NotFound) — never with a generic `AttributeError`, never by registering an
unknown table (the metadata is returned unchanged), and never by a catalog
round trip (the count is zero); a name present at reflection time returns
the cached descriptor. -/
theorem lookup_notfound_or_cached (c : SchemaContainer) (tname : String) :
    (c.tables.lookup tname = none →
      c.getattr tname = (.error (.invalidRequest tname), c, 0)) ∧
    (∀ t, c.tables.lookup tname = some t →
      c.getattr tname = (.ok t, c, 0)) := by
  constructor
  · intro h
    simp [SchemaContainer.getattr, sa_Table, h]
  · intro t h
    simp [SchemaContainer.getattr, sa_Table, h]

theorem lookup_notfound_or_cached_witness :
    ((⟨"public", [("users", ⟨"public", "users", ["id"]⟩)]⟩ :
        SchemaContainer).getattr "ghost" =
      (.error (.invalidRequest "ghost"),
        ⟨"public", [("users", ⟨"public", "users", ["id"]⟩)]⟩, 0)) ∧
    ((⟨"public", [("users", ⟨"public", "users", ["id"]⟩)]⟩ :
        SchemaContainer).getattr "users" =
      (.ok ⟨"public", "users", ["id"]⟩,
        ⟨"public", [("users", ⟨"public", "users", ["id"]⟩)]⟩, 0)) :=
  ⟨(lookup_notfound_or_cached _ "ghost").1 (by decide),
   (lookup_notfound_or_cached _ "users").2 _ (by decide)⟩

/-- C4: reflection against the catalog happens exactly once, at container
construction (the construction's round-trip count is one for every catalog
and schema name); any sequence of lookups against the constructed container
adds zero catalog round trips and leaves the cached metadata unchanged. -/
theorem reflect_once_lookups_no_roundtrips (cat : Catalog) (s : String) :
    (SchemaContainer.construct cat s).2 = 1 ∧
    (∀ c, (SchemaContainer.construct cat s).1 = .ok c →
      ∀ names, SchemaContainer.lookupMany c names = (c, 0)) := by
  constructor
  · unfold SchemaContainer.construct reflect
    cases cat.schemas.lookup s <;> simp
  · intro c _ names
    exact lookupMany_fixed names c 0

theorem reflect_once_lookups_no_roundtrips_witness :
    (SchemaContainer.construct demoCatalog "public").2 = 1 ∧
    SchemaContainer.lookupMany
      ⟨"public", [("users", ⟨"public", "users", ["id", "name"]⟩),
        ("v_users", ⟨"public", "v_users", ["id"]⟩)]⟩
      ["users", "ghost", "v_users"] =
      (⟨"public", [("users", ⟨"public", "users", ["id", "name"]⟩),
        ("v_users", ⟨"public", "v_users", ["id"]⟩)]⟩, 0) :=
  ⟨(reflect_once_lookups_no_roundtrips demoCatalog "public").1,
   (reflect_once_lookups_no_roundtrips demoCatalog "public").2 _ rfl
     ["users", "ghost", "v_users"]⟩

theorem buildContainers_ok_lookup (cat : Catalog) (schemas : List (String × String))
    (hnd : (schemas.map Prod.fst).Nodup) (entries : List (String × SchemaContainer))
    (h : buildContainers cat schemas = .ok entries) :
    ∀ p ∈ schemas, ∃ c, entries.lookup p.1 = some c ∧ c.name = p.2 ∧
      (SchemaContainer.construct cat p.2).1 = .ok c := by
  induction schemas generalizing entries with
  | nil => intro p hp; exact absurd hp (List.not_mem_nil p)
  | cons q rest ih =>
    rw [List.map_cons, List.nodup_cons] at hnd
    unfold buildContainers at h
    revert h
    cases hc : (SchemaContainer.construct cat q.2).1 with
    | error e => intro h; exact absurd h (by simp)
    | ok c =>
      cases hr : buildContainers cat rest with
      | error e => intro h; exact absurd h (by simp)
      | ok cs =>
        intro h
        have hent : entries = (q.1, c) :: cs := by
          simpa using h.symm
        subst hent
        intro p hp
        rcases List.mem_cons.mp hp with hq | hrest
        · subst hq
          refine ⟨c, by simp [List.lookup], ?_, hc⟩
          unfold SchemaContainer.construct at hc
          revert hc
          cases reflect cat p.2 with
          | mk r n =>
            cases r with
            | ok tbls => intro hc; simpa using (congrArg (fun x =>
                match x with
                | .ok y => SchemaContainer.name y
                | .error _ => "") hc).symm
            | error e => intro hc; exact absurd hc (by simp)
        · obtain ⟨c', hl, hn, hcon⟩ := ih hnd.2 cs hr p hrest
          refine ⟨c', ?_, hn, hcon⟩
          have hne : (p.1 == q.1) = false := by
            have hm : p.1 ∈ rest.map Prod.fst := List.mem_map_of_mem Prod.fst hrest
            have : p.1 ≠ q.1 := fun he => hnd.1 (he ▸ hm)
            simpa using this
          simpa [List.lookup, hne] using hl

theorem buildContainers_fails (cat : Catalog) (schemas : List (String × String))
    (h : ∃ p ∈ schemas, ∃ e, (SchemaContainer.construct cat p.2).1 = .error e) :
    ∃ e, buildContainers cat schemas = .error e := by
  induction schemas with
  | nil => obtain ⟨p, hp, _⟩ := h; exact absurd hp (List.not_mem_nil p)
  | cons q rest ih =>
    obtain ⟨p, hp, e, he⟩ := h
    unfold buildContainers
    rcases List.mem_cons.mp hp with hq | hrest
    · subst hq
      rw [he]
      exact ⟨e, rfl⟩
    · cases hc : (SchemaContainer.construct cat q.2).1 with
      | error e' => exact ⟨e', rfl⟩
      | ok c =>
        obtain ⟨e', he'⟩ := ih ⟨p, hrest, e, he⟩
        rw [he']
        exact ⟨e', rfl⟩

/-- C5: when state construction succeeds, the namespace is fully built —
every requested alias maps to a container fully reflected from its schema —
before the state object exists; when any requested schema's reflection
fails the construction returns no state at all (all-or-nothing); and every
connection handle carries exactly the state's fully built entries, so no
handle ever references a partially built namespace.  The alias keys are
assumed distinct, as Python keyword arguments are. -/
theorem namespace_fully_built_before_state_returned (eng : Nat) (cat : Catalog)
    (schemas : List (String × String)) (alloc : Nat)
    (hnd : (schemas.map Prod.fst).Nodup) :
    (∀ st a1, SqlState.init eng cat schemas alloc = (.ok st, a1) →
      ∀ p ∈ schemas, ∃ c, st.s.entries.lookup p.1 = some c ∧ c.name = p.2 ∧
        (SchemaContainer.construct cat p.2).1 = .ok c) ∧
    ((∃ p ∈ schemas, ∃ e, (SchemaContainer.construct cat p.2).1 = .error e) →
      ∀ st a1, SqlState.init eng cat schemas alloc ≠ (.ok st, a1)) ∧
    (∀ conn entries a, ((SqlConn.init conn entries a).1).s.entries = entries ∧
      ((AsyncSqlConn.init conn entries a).1).s.entries = entries) := by
  refine ⟨?_, ?_, fun conn entries a => ⟨rfl, rfl⟩⟩
  · intro st a1 hinit
    unfold SqlState.init make_schema_namespace at hinit
    revert hinit
    cases hb : buildContainers cat schemas with
    | error e => intro hinit; exact absurd hinit (by simp)
    | ok entries =>
      intro hinit
      have hst : st = ⟨eng, ⟨alloc, entries⟩⟩ := by
        have := congrArg Prod.fst hinit
        simpa using this.symm
      subst hst
      exact buildContainers_ok_lookup cat schemas hnd entries hb
  · intro hfail st a1 hinit
    obtain ⟨e, he⟩ := buildContainers_fails cat schemas hfail
    unfold SqlState.init make_schema_namespace at hinit
    rw [he] at hinit
    exact absurd (congrArg Prod.fst hinit) (by simp)

theorem namespace_fully_built_witness :
    ∃ c, (((SqlState.init 0 demoCatalog [("s", "public")] 0).1.toOption.get
        (by decide)).s.entries.lookup "s" = some c) ∧ c.name = "public" ∧
      (SchemaContainer.construct demoCatalog "public").1 = .ok c := by
  have h := namespace_fully_built_before_state_returned 0 demoCatalog
    [("s", "public")] 0 (by decide)
  exact h.1 _ 1 rfl ("s", "public") (by decide)

/-- C1: for every state object (blocking or non-blocking), every engine,
and every exit path of the acquisition body (normal completion, early
return, or raised error — and also when checkout itself fails), the
connection checked out by `connect()` / `acquire()` is returned to the
pool when the acquisition scope exits: the pool's checked-out connections
after the cycle equal those before it. -/
theorem connect_acquire_return_connection {α : Type} (bst : SqlState)
    (ast : AsyncSqlState) (e₁ e₂ : EngineRec) (a₁ a₂ : Nat)
    (body₁ : SqlConn → Outcome α) (body₂ : AsyncSqlConn → Outcome α) :
    ((bst.connect_scope e₁ a₁ body₁).1).pool.checkedOut = e₁.pool.checkedOut ∧
    ((ast.acquire_scope e₂ a₂ body₂).1).pool.checkedOut = e₂.pool.checkedOut := by
  constructor
  · unfold SqlState.connect_scope EngineRec.connect EngineRec.release
    cases h : e₁.disposed <;> simp [h]
  · unfold AsyncSqlState.acquire_scope EngineRec.connect EngineRec.release
    cases h : e₂.disposed <;> simp [h]

/-- C6: exiting the owning scope of a blocking or non-blocking state
disposes the engine exactly once — on normal and exceptional exit alike,
since the scope invokes disposal whatever the body's outcome — provided the
body itself did not dispose; afterwards the engine is in the Disposed
state, attempting to connect on it fails with a ConnectionError, and
Disposed is terminal: a disposed engine stays disposed and keeps rejecting
connection attempts. -/
theorem scope_exit_disposes_engine_exactly_once {α : Type} (e : EngineRec)
    (body : EngineRec → Outcome α × EngineRec)
    (h : (body e).2.disposeCalls = e.disposeCalls) :
    ((SqlState.with_scope e body).2.disposeCalls = e.disposeCalls + 1 ∧
      (SqlState.with_scope e body).2.disposed = true ∧
      (SqlState.with_scope e body).2.connect = .error .engineDisposed) ∧
    ((AsyncSqlState.with_scope e body).2.disposeCalls = e.disposeCalls + 1 ∧
      (AsyncSqlState.with_scope e body).2.disposed = true ∧
      (AsyncSqlState.with_scope e body).2.connect = .error .engineDisposed) ∧
    (∀ e' : EngineRec, e'.disposed = true →
      e'.dispose.disposed = true ∧ e'.connect = .error .engineDisposed) := by
  refine ⟨⟨?_, rfl, rfl⟩, ⟨?_, rfl, rfl⟩, fun e' h' =>
    ⟨rfl, by simp [EngineRec.connect, h']⟩⟩
  · simp [SqlState.with_scope, EngineRec.dispose, h]
  · simp [AsyncSqlState.with_scope, EngineRec.dispose, h]

theorem scope_exit_disposes_witness :
    (SqlState.with_scope (α := Nat) { kind := .blocking, url := "u" }
      (fun e => (.raised "boom", e))).2.disposeCalls = 1 ∧
    (AsyncSqlState.with_scope (α := Nat) { kind := .blocking, url := "u" }
      (fun e => (.raised "boom", e))).2.disposed = true :=
  ⟨(scope_exit_disposes_engine_exactly_once { kind := .blocking, url := "u" }
      (fun e => (.raised "boom", e)) rfl).1.1,
   (scope_exit_disposes_engine_exactly_once { kind := .blocking, url := "u" }
      (fun e => (.raised "boom", e)) rfl).2.1.2.1⟩

theorem SqlState_init_eq (eng : Nat) (cat : Catalog)
    (schemas : List (String × String)) (alloc : Nat) :
    SqlState.init eng cat schemas alloc =
      (match buildContainers cat schemas with
       | .ok entries => .ok ⟨eng, ⟨alloc, entries⟩⟩
       | .error e => .error e,
       match buildContainers cat schemas with
       | .ok _ => alloc + 1
       | .error _ => alloc) := by
  unfold SqlState.init make_schema_namespace
  cases buildContainers cat schemas <;> rfl

theorem sql_from_config_eq (w : World) (cfg : SqlConfig)
    (schemas : List (String × String)) (alloc : Nat) :
    sql_from_config w cfg schemas alloc =
      ((match buildContainers w.db schemas with
        | .ok entries => .ok ⟨w.nextEngine, ⟨alloc, entries⟩⟩
        | .error e => .error e),
       (w.create_engine { kind := .blocking,
                          url := make_url "postgresql" cfg,
                          connectArgs := tlsParams cfg.tls }).2,
       (match buildContainers w.db schemas with
        | .ok _ => alloc + 1
        | .error _ => alloc)) := by
  unfold sql_from_config SqlState.init make_schema_namespace
  simp only [World.create_engine]
  cases buildContainers w.db schemas <;> rfl

theorem asql_from_config_gen_eq (w : World) (cfg : SqlConfig)
    (cargs schemas : List (String × String)) (alloc : Nat) :
    asql_from_config_gen w cfg cargs schemas alloc =
      ((match buildContainers w.db schemas with
        | .ok entries =>
          .ok (⟨w.nextEngine, ⟨alloc, entries⟩⟩, ⟨w.nextEngine + 1, ⟨alloc, entries⟩⟩)
        | .error e => .error e),
       ((w.create_engine { kind := .async,
                           url := make_url "postgresql+asyncpg" cfg,
                           connectArgs := dictMerge cargs (tlsParams cfg.tls) }).2.create_engine
          { kind := .blocking,
            url := make_url "postgresql" cfg,
            connectArgs := tlsParams cfg.tls }).2,
       (match buildContainers w.db schemas with
        | .ok _ => alloc + 1
        | .error _ => alloc)) := by
  unfold asql_from_config_gen sql_from_config SqlState.init make_schema_namespace
  simp only [World.create_engine]
  cases buildContainers w.db schemas <;> rfl

theorem asql_from_engine_gen_eq (w : World) (engId : Nat)
    (schemas : List (String × String)) (alloc : Nat) :
    asql_from_engine_gen w engId schemas alloc =
      ((match buildContainers w.db schemas with
        | .ok entries => .ok (⟨w.nextEngine, ⟨alloc, entries⟩⟩, ⟨engId, ⟨alloc, entries⟩⟩)
        | .error e => .error e),
       (w.create_engine { kind := .async,
                          url := (match w.engine? engId with
                                  | some r => r.url
                                  | none => "") }).2,
       (match buildContainers w.db schemas with
        | .ok _ => alloc + 1
        | .error _ => alloc)) := by
  unfold asql_from_engine_gen SqlState.init make_schema_namespace
  simp only [World.create_engine]
  cases buildContainers w.db schemas <;> rfl

theorem engine?_after_create (w : World) (r : EngineRec) :
    ((w.create_engine r).2).engine? w.nextEngine = some r := by
  simp [World.create_engine, World.engine?, List.lookup]

theorem engine?_two_fst (w : World) (r1 r2 : EngineRec) :
    ((w.create_engine r1).2.create_engine r2).2.engine? w.nextEngine = some r1 := by
  have hne : (w.nextEngine == w.nextEngine + 1) = false := by simp
  simp [World.create_engine, World.engine?, List.lookup, hne]

theorem engine?_two_snd (w : World) (r1 r2 : EngineRec) :
    ((w.create_engine r1).2.create_engine r2).2.engine? (w.nextEngine + 1) =
      some r2 := by
  simp [World.create_engine, World.engine?, List.lookup]

theorem engine?_two_dispose_fst (w : World) (r1 r2 : EngineRec) :
    (((w.create_engine r1).2.create_engine r2).2.dispose_engine
        w.nextEngine).engine? w.nextEngine = some r1.dispose := by
  have hne : (w.nextEngine == w.nextEngine + 1) = false := by simp
  have hne2 : (w.nextEngine + 1 == w.nextEngine) = false := by simp
  simp [World.create_engine, World.dispose_engine, World.engine?, List.lookup,
    hne, hne2]

theorem engine?_two_dispose_snd (w : World) (r1 r2 : EngineRec) :
    (((w.create_engine r1).2.create_engine r2).2.dispose_engine
        w.nextEngine).engine? (w.nextEngine + 1) = some r2 := by
  have hne2 : (w.nextEngine + 1 == w.nextEngine) = false := by simp
  simp [World.create_engine, World.dispose_engine, World.engine?, List.lookup, hne2]

/-- C2, counterexample: at a concrete configuration whose requested schema
`missing` is absent from the catalog, `sql_from_config` propagates the
reflection error, yet the engine it constructed is not disposed — it sits
in the world with `disposed = false` and zero dispose calls when the error
reaches the caller, contradicting the claim that every engine constructed
by the invocation is disposed on this path. -/
theorem reflection_failure_leaves_engine_undisposed_cx :
    (sql_from_config ⟨demoCatalog, 0, []⟩ demoConfig [("s", "missing")] 0).1 =
      .error (.reflectFailed "missing") ∧
    ((sql_from_config ⟨demoCatalog, 0, []⟩ demoConfig [("s", "missing")] 0).2.1.engine?
        0).map EngineRec.disposed = some false ∧
    ((sql_from_config ⟨demoCatalog, 0, []⟩ demoConfig [("s", "missing")] 0).2.1.engine?
        0).map EngineRec.disposeCalls = some 0 :=
  ⟨rfl, rfl, rfl⟩

/-- C2, amended: in both factory invocations, when schema reflection fails
after the engine(s) have been constructed, the error propagates as the
reflection's SchemaError, but no constructed engine is disposed: the
blocking engine of `sql_from_config` — and, for `asql_from_config`, both
the async engine and the blocking reflection engine — remain live
(`disposed = false`, zero dispose calls) when the error reaches the
caller. -/
theorem reflection_failure_propagates_engines_undisposed (w : World)
    (cfg : SqlConfig) (cargs : List (String × String))
    (schemas : List (String × String)) (alloc : Nat) (err : SchemaError)
    (h : buildContainers w.db schemas = .error err) :
    ((sql_from_config w cfg schemas alloc).1 = .error err ∧
      ((sql_from_config w cfg schemas alloc).2.1.engine? w.nextEngine).map
        EngineRec.disposed = some false ∧
      ((sql_from_config w cfg schemas alloc).2.1.engine? w.nextEngine).map
        EngineRec.disposeCalls = some 0) ∧
    ((asql_from_config_gen w cfg cargs schemas alloc).1 = .error err ∧
      ((asql_from_config_gen w cfg cargs schemas alloc).2.1.engine? w.nextEngine).map
        EngineRec.disposed = some false ∧
      ((asql_from_config_gen w cfg cargs schemas alloc).2.1.engine?
          (w.nextEngine + 1)).map EngineRec.disposed = some false) := by
  constructor
  · rw [sql_from_config_eq, h]
    exact ⟨rfl, by rw [engine?_after_create]; rfl, by rw [engine?_after_create]; rfl⟩
  · rw [asql_from_config_gen_eq, h]
    exact ⟨rfl, by rw [engine?_two_fst]; rfl, by rw [engine?_two_snd]; rfl⟩

theorem reflection_failure_undisposed_witness :
    (asql_from_config_gen ⟨demoCatalog, 0, []⟩ demoConfig [] [("s", "missing")] 0).1 =
      .error (.reflectFailed "missing") ∧
    ((asql_from_config_gen ⟨demoCatalog, 0, []⟩ demoConfig [] [("s", "missing")]
        0).2.1.engine? 1).map EngineRec.disposed = some false :=
  ⟨(reflection_failure_propagates_engines_undisposed ⟨demoCatalog, 0, []⟩
      demoConfig [] [("s", "missing")] 0 (.reflectFailed "missing") rfl).2.1,
   (reflection_failure_propagates_engines_undisposed ⟨demoCatalog, 0, []⟩
      demoConfig [] [("s", "missing")] 0 (.reflectFailed "missing") rfl).2.2.2⟩

/-- C7: the non-blocking state produced by `asql_from_engine` over a
blocking engine resolves every alias and table name exactly as the blocking
state built from the same engine over the same aliases does: the two
namespaces yield identical resolution results, NotFound outcomes
included. -/
theorem asql_from_engine_namespace_matches_blocking (w : World) (engId : Nat)
    (schemas : List (String × String)) (alloc alloc' : Nat)
    (pr : AsyncSqlState × SqlState) (st : SqlState)
    (h1 : (asql_from_engine_gen w engId schemas alloc).1 = .ok pr)
    (h2 : (SqlState.init engId w.db schemas alloc').1 = .ok st) :
    ∀ al tn, pr.1.s.resolve al tn = st.s.resolve al tn := by
  rw [asql_from_engine_gen_eq] at h1
  rw [SqlState_init_eq] at h2
  revert h1 h2
  cases hb : buildContainers w.db schemas with
  | error e =>
    intro h1 h2
    exact absurd h2 (by simp)
  | ok entries =>
    intro h1 h2
    obtain rfl := Except.ok.inj h1
    obtain rfl := Except.ok.inj h2
    intro al tn
    rfl

theorem asql_from_engine_matches_witness :
    (AsyncSqlState.s ⟨1, ⟨0, demoEntries⟩⟩).resolve "s" "users" =
      (SqlState.s ⟨0, ⟨5, demoEntries⟩⟩).resolve "s" "users" :=
  asql_from_engine_namespace_matches_blocking demoWorld 0 [("s", "public")] 0 5
    (⟨1, ⟨0, demoEntries⟩⟩, ⟨0, ⟨0, demoEntries⟩⟩) ⟨0, ⟨5, demoEntries⟩⟩
    rfl rfl "s" "users"

/-- C9, counterexample: two handles acquired in sequence from the same
concrete state do not hold the identical namespace instance — each
acquisition wraps the entries in a freshly allocated `SimpleNamespace`, so
the two handles' namespaces (identities 1 and 2) differ from each other and
from the state's own namespace (identity 0), refuting the claim that any
two handles share the identical namespace instance. -/
theorem handles_hold_distinct_namespace_objects_cx :
    demoScope1.2.2 = .ok ⟨0, ⟨1, demoEntries⟩⟩ ∧
    demoScope2.2.2 = .ok ⟨1, ⟨2, demoEntries⟩⟩ ∧
    (⟨1, demoEntries⟩ : SNamespace) ≠ ⟨2, demoEntries⟩ ∧
    (⟨1, demoEntries⟩ : SNamespace) ≠ demoState.s :=
  ⟨rfl, rfl, by decide, by decide⟩

/-- C9, amended: the container entries are built once per state and shared
with every handle: each acquisition hands its body a handle wrapping
exactly the state's entries in a fresh namespace object, so any two handles
(blocking or non-blocking) hold namespaces with identical entries — hence
every alias and table name resolves through any handle to exactly what it
resolves to through the state — though the namespace objects themselves are
distinct allocations, not one shared instance. -/
theorem handles_share_entries_and_resolution (st : SqlState)
    (ast : AsyncSqlState) :
    (∀ {α : Type} (e : EngineRec) (alloc : Nat) (body : SqlConn → Outcome α),
      e.disposed = false →
      (st.connect_scope e alloc body).2.2 =
        body (SqlConn.init e.pool.nextConn st.s.entries alloc).1) ∧
    (∀ {α : Type} (e : EngineRec) (alloc : Nat) (body : AsyncSqlConn → Outcome α),
      e.disposed = false →
      (ast.acquire_scope e alloc body).2.2 =
        body (AsyncSqlConn.init e.pool.nextConn ast.s.entries alloc).1) ∧
    (∀ c₁ c₂ a₁ a₂,
      ((SqlConn.init c₁ st.s.entries a₁).1).s.entries =
        ((SqlConn.init c₂ st.s.entries a₂).1).s.entries ∧
      ∀ al tn, ((SqlConn.init c₁ st.s.entries a₁).1).s.resolve al tn =
        st.s.resolve al tn) ∧
    (∀ c₁ c₂ a₁ a₂,
      ((AsyncSqlConn.init c₁ ast.s.entries a₁).1).s.entries =
        ((AsyncSqlConn.init c₂ ast.s.entries a₂).1).s.entries ∧
      ∀ al tn, ((AsyncSqlConn.init c₁ ast.s.entries a₁).1).s.resolve al tn =
        ast.s.resolve al tn) := by
  refine ⟨?_, ?_, fun c₁ c₂ a₁ a₂ => ⟨rfl, fun al tn => rfl⟩,
    fun c₁ c₂ a₁ a₂ => ⟨rfl, fun al tn => rfl⟩⟩
  · intro α e alloc body h
    simp [SqlState.connect_scope, EngineRec.connect, h, SqlConn.init]
  · intro α e alloc body h
    simp [AsyncSqlState.acquire_scope, EngineRec.connect, h, AsyncSqlConn.init]

theorem handles_share_entries_witness :
    (demoState.connect_scope demoEngine 1 (fun h => Outcome.ok h)).2.2 =
      .ok (SqlConn.init demoEngine.pool.nextConn demoState.s.entries 1).1 :=
  (handles_share_entries_and_resolution demoState ⟨0, ⟨0, demoEntries⟩⟩).1
    demoEngine 1 (fun h => Outcome.ok h) rfl

/-- C10: `asql_from_config` constructs a second, blocking engine (through
`sql_from_config`) to perform reflection, and the library never disposes
it: after the full factory cycle whose body disposes the yielded
`AsyncSqlState` — which disposes the async engine exactly once — the
blocking reflection engine is still live with zero dispose calls, and it is
equally untouched when the factory scope exits without disposing the
state. -/
theorem blocking_reflection_engine_never_disposed (w : World) (cfg : SqlConfig)
    (cargs : List (String × String)) (schemas : List (String × String))
    (alloc : Nat) (entries : List (String × SchemaContainer))
    (h : buildContainers w.db schemas = .ok entries) :
    (((asql_from_config_scope w cfg cargs schemas alloc
        (fun st w1 => (Outcome.ok 0, st.aexit w1))).2.1.engine? w.nextEngine).map
        EngineRec.disposeCalls = some 1 ∧
      ((asql_from_config_scope w cfg cargs schemas alloc
        (fun st w1 => (Outcome.ok 0, st.aexit w1))).2.1.engine?
          (w.nextEngine + 1)).map EngineRec.kind = some .blocking ∧
      ((asql_from_config_scope w cfg cargs schemas alloc
        (fun st w1 => (Outcome.ok 0, st.aexit w1))).2.1.engine?
          (w.nextEngine + 1)).map EngineRec.disposed = some false ∧
      ((asql_from_config_scope w cfg cargs schemas alloc
        (fun st w1 => (Outcome.ok 0, st.aexit w1))).2.1.engine?
          (w.nextEngine + 1)).map EngineRec.disposeCalls = some 0) ∧
    (((asql_from_config_scope w cfg cargs schemas alloc
        (fun _ w1 => (Outcome.ok 0, w1))).2.1.engine?
          (w.nextEngine + 1)).map EngineRec.disposeCalls = some 0) := by
  unfold asql_from_config_scope
  rw [asql_from_config_gen_eq, h]
  refine ⟨⟨?_, ?_, ?_, ?_⟩, ?_⟩ <;>
    simp [AsyncSqlState.aexit, engine?_two_dispose_fst, engine?_two_dispose_snd,
      engine?_two_snd, EngineRec.dispose]

theorem blocking_engine_never_disposed_witness :
    ((asql_from_config_scope ⟨demoCatalog, 0, []⟩ demoConfig [] [("s", "public")] 0
        (fun st w1 => (Outcome.ok 0, st.aexit w1))).2.1.engine? 0).map
        EngineRec.disposeCalls = some 1 ∧
    ((asql_from_config_scope ⟨demoCatalog, 0, []⟩ demoConfig [] [("s", "public")] 0
        (fun st w1 => (Outcome.ok 0, st.aexit w1))).2.1.engine? 1).map
        EngineRec.disposed = some false :=
  ⟨(blocking_reflection_engine_never_disposed ⟨demoCatalog, 0, []⟩ demoConfig []
      [("s", "public")] 0 demoEntries rfl).1.1,
   (blocking_reflection_engine_never_disposed ⟨demoCatalog, 0, []⟩ demoConfig []
      [("s", "public")] 0 demoEntries rfl).1.2.2.1⟩

end SqlStateM
